import Mathlib

/-
Verification development for the close-approach dashboard (src/app.py).
The query-construction / response-normalization pipeline is embedded
shallowly: JSON payloads become an inductive `Json`, the parameter dict
of `fetch_close_approaches` becomes an association list, the pandas
DataFrame produced by `parse_data` becomes a list of rows (association
lists of typed cells), and the `pd.concat` + `drop_duplicates` step of
`main` becomes `combineRows`.
-/

namespace NeoComet

/-- Decidable equality of `Except` results, for evaluating the embedded
functions on concrete inputs. -/
instance {ε α : Type} [DecidableEq ε] [DecidableEq α] : DecidableEq (Except ε α) := fun x y =>
  match x, y with
  | .ok a, .ok b => if h : a = b then .isTrue (by rw [h]) else .isFalse (by simp [h])
  | .error a, .error b => if h : a = b then .isTrue (by rw [h]) else .isFalse (by simp [h])
  | .ok _, .error _ => .isFalse (by simp)
  | .error _, .ok _ => .isFalse (by simp)

/-- JSON values, as decoded by `response.json()` (app.py line 45).
Objects are association lists in key order; lookups take the first match. -/
inductive Json where
  | null : Json
  | bool (b : Bool) : Json
  | num (q : Rat) : Json
  | str (s : String) : Json
  | arr (xs : List Json) : Json
  | obj (kvs : List (String × Json)) : Json

/-- Python `dict.get(k, dflt)` on a JSON object given as an association list. -/
def pyGet (kvs : List (String × Json)) (k : String) (dflt : Json) : Json :=
  (kvs.lookup k).getD dflt

/-- Python `x == 0` for a JSON value `x` (app.py line 61).
`0 == 0` and `False == 0` hold in Python; all other JSON values differ from `0`. -/
def jsonEqZero : Json → Bool
  | .num q => decide (q = 0)
  | .bool b => !b
  | _ => false

/-- The `BODY_CODES` dictionary (app.py lines 11-21). -/
def BODY_CODES : List (String × String) :=
  [("Mercury", "Merc"), ("Venus", "Venus"), ("Earth", "Earth"), ("Mars", "Mars"),
   ("Jupiter", "Juptr"), ("Saturn", "Satrn"), ("Uranus", "Urnus"), ("Neptune", "Neptn"),
   ("Moon", "Moon")]

/-- A value of the query-parameter dict `my_params`: the source stores strings
for every key except `limit`, which stays an integer (app.py lines 27-33). -/
inductive ParamValue where
  | str (s : String) : ParamValue
  | int (n : Nat) : ParamValue
  deriving DecidableEq

/-- The unconditional part of `my_params` (app.py lines 27-33): the
`dist-max` entry is the f-string concatenation of magnitude and unit. -/
def baseParams (body_code min_date max_date max_dist dist_unit : String)
    (my_limit : Nat) : List (String × ParamValue) :=
  [("body", .str body_code),
   ("date-min", .str min_date),
   ("date-max", .str max_date),
   ("dist-max", .str (max_dist ++ dist_unit)),
   ("limit", .int my_limit)]

/-- The object-type branch (app.py lines 36-39).  The `elif` on line 38
references the undefined name `object_tye`, so any `object_type` other than
`"NEO"` reaches that comparison and raises `NameError` before the request. -/
def buildMyParams (body_code min_date max_date max_dist dist_unit : String)
    (my_limit : Nat) (object_type : String) : Except String (List (String × ParamValue)) :=
  let my_params := baseParams body_code min_date max_date max_dist dist_unit my_limit
  if object_type == "NEO" then
    .ok (my_params ++ [("neo", .str "true")])
  else
    .error "NameError: name \x27object_tye\x27 is not defined"

mutual
/-- Python `repr` of a decoded JSON value, as interpolated by the f-string on
app.py line 51 (numeric formatting is approximated; no claim depends on it). -/
def pyRepr : Json → String
  | .null => "None"
  | .bool b => if b then "True" else "False"
  | .num q => if q.den = 1 then toString q.num else toString q
  | .str s => "\x27" ++ s ++ "\x27"
  | .arr xs => "[" ++ pyReprArr xs ++ "]"
  | .obj kvs => "\x7b" ++ pyReprObj kvs ++ "\x7d"

def pyReprArr : List Json → String
  | [] => ""
  | [x] => pyRepr x
  | x :: y :: rest => pyRepr x ++ ", " ++ pyReprArr (y :: rest)

def pyReprObj : List (String × Json) → String
  | [] => ""
  | [(k, v)] => "\x27" ++ k ++ "\x27: " ++ pyRepr v
  | (k, v) :: p :: rest => "\x27" ++ k ++ "\x27: " ++ pyRepr v ++ ", " ++ pyReprObj (p :: rest)
end

/-- Abstract outcome of `requests.get` (app.py line 43).
`response ok errDesc body`: an HTTP response was received; `ok` is whether
`raise_for_status` passes, `errDesc` is `str(http_err)` when it does not, and
`body` is the result of `response.json()` (`.error desc` when the body is not
JSON, with `desc` the description of the decode exception, which in
`requests` is a `RequestException`).  `transportFailure desc` covers timeouts,
DNS failures, connection resets and the like, with `desc` equal to `str(e)`. -/
inductive HttpOutcome where
  | response (ok : Bool) (errDesc : String) (body : Except String Json) : HttpOutcome
  | transportFailure (desc : String) : HttpOutcome

/-- The `try`/`except` ladder of `fetch_close_approaches` (app.py lines 42-57).
Returns the decoded payload on success (`return data`, line 46) or `none` on
failure (lines 54, 57), paired with the list of messages shown via `st.error`. -/
def handleResponse : HttpOutcome → Option Json × List String
  | .transportFailure desc =>
      (none, ["⚠️ Error fetching data from API: " ++ desc])
  | .response ok errDesc body =>
    if ok then
      match body with
      | .ok data => (some data, [])
      | .error desc => (none, ["⚠️ Error fetching data from API: " ++ desc])
    else
      match body with
      | .ok error_info =>
          (none, ["⚠️ HTTP error occurred: " ++ errDesc,
                  "🔍 Error Details: " ++ pyRepr error_info])
      | .error _ =>
          (none, ["⚠️ HTTP error occurred: " ++ errDesc,
                  "🔍 No additional error information provided."])

/-- `fetch_close_approaches` (app.py lines 25-57), with the network call
abstracted as `net`.  The parameter dict is built first; if that raises
(the `object_tye` NameError), no request is issued, so the result does not
depend on `net` and the exception propagates to the caller. -/
def fetch_close_approaches (body_code min_date max_date max_dist dist_unit : String)
    (my_limit : Nat) (object_type : String)
    (net : List (String × ParamValue) → HttpOutcome) :
    Except String (Option Json × List String) :=
  match buildMyParams body_code min_date max_date max_dist dist_unit my_limit object_type with
  | .error e => .error e
  | .ok my_params => .ok (handleResponse (net my_params))

/-- Scalar JSON values: the entries of a record in the payload`s `data` list
(per the provider contract each record is a positional list of strings,
with occasional nulls). -/
inductive Scalar where
  | null : Scalar
  | bool (b : Bool) : Scalar
  | num (q : Rat) : Scalar
  | str (s : String) : Scalar
  deriving DecidableEq

/-- A parsed close-approach timestamp (`pd.to_datetime`, app.py line 70). -/
structure Timestamp where
  year : Nat
  month : Nat
  day : Nat
  hour : Nat
  minute : Nat
  deriving DecidableEq

/-- A DataFrame cell: either a raw payload value, a coerced number, the NaN
marker produced by `errors=\x27coerce\x27`, a parsed timestamp, or NaT. -/
inductive Cell where
  | raw (v : Scalar) : Cell
  | num (q : Rat) : Cell
  | nan : Cell
  | time (t : Timestamp) : Cell
  | nat_missing : Cell
  deriving DecidableEq

/-- Digits to the natural number they denote (most significant first). -/
def digitsToNat (cs : List Char) : Nat :=
  cs.foldl (fun a c => a * 10 + (c.toNat - 48)) 0

/-- Split a character list on a separator, keeping empty groups. -/
def splitOnChar (sep : Char) : List Char → List (List Char)
  | [] => [[]]
  | c :: rest =>
    let r := splitOnChar sep rest
    if c == sep then [] :: r
    else match r with
      | [] => [[c]]
      | g :: gs => (c :: g) :: gs

/-- The month abbreviations matched by the `%b` directive, lower-cased. -/
def MONTH_ABBREVS : List (List Char) :=
  ["jan".toList, "feb".toList, "mar".toList, "apr".toList, "may".toList, "jun".toList,
   "jul".toList, "aug".toList, "sep".toList, "oct".toList, "nov".toList, "dec".toList]

/-- ASCII lower-casing, as `strptime` matches month names case-insensitively. -/
def lowerChar (c : Char) : Char :=
  if 'A' ≤ c ∧ c ≤ 'Z' then Char.ofNat (c.toNat + 32) else c

/-- Month number (1-12) of a `%b` month abbreviation. -/
def monthIndex (cs : List Char) : Option Nat :=
  (MONTH_ABBREVS.indexOf? (cs.map lowerChar)).map (· + 1)

/-- A nonempty all-digit character group. -/
def allDigits (cs : List Char) : Bool := !cs.isEmpty && cs.all (·.isDigit)

def isLeapYear (y : Nat) : Bool := (y % 4 == 0 && y % 100 != 0) || (y % 400 == 0)

def daysInMonth (y m : Nat) : Nat :=
  if m == 2 then (if isLeapYear y then 29 else 28)
  else if m == 4 || m == 6 || m == 9 || m == 11 then 30
  else 31

/-- `pd.to_datetime(s, format=\x27%Y-%b-%d %H:%M\x27)` on one string
(app.py line 70): a 4-digit year, a month abbreviation, a 1-2 digit day,
one space, and 1-2 digit hour and minute, with calendar-valid ranges.
Returns `none` exactly when pandas would raise. -/
def parseDatetime (s : String) : Option Timestamp :=
  match splitOnChar ' ' s.toList with
  | [dpart, tpart] =>
    match splitOnChar '-' dpart, splitOnChar ':' tpart with
    | [ys, ms, ds], [hs, mins] =>
      if allDigits ys && ys.length == 4 && allDigits ds && ds.length ≤ 2
         && allDigits hs && hs.length ≤ 2 && allDigits mins && mins.length ≤ 2 then
        match monthIndex ms with
        | some m =>
          let y := digitsToNat ys
          let d := digitsToNat ds
          let h := digitsToNat hs
          let mi := digitsToNat mins
          if 1 ≤ d && d ≤ daysInMonth y m && h ≤ 23 && mi ≤ 59 then
            some ⟨y, m, d, h, mi⟩
          else none
        | none => none
      else none
    | _, _ => none
  | _ => none

/-- Characters stripped from numeric strings before parsing. -/
def isSpaceChar (c : Char) : Bool := c == ' ' || c == '\t' || c == '\n' || c == '\r'

def trimChars (cs : List Char) : List Char :=
  ((cs.dropWhile isSpaceChar).reverse.dropWhile isSpaceChar).reverse

/-- `pd.to_numeric` on one string (app.py lines 71-73): an optional sign, a
decimal mantissa with at least one digit, and an optional exponent.  Returns
`none` exactly when the string is not numeric (the `errors=\x27coerce\x27`
case).  The value is built with `mkRat` from integer arithmetic. -/
def parseNumeric (s : String) : Option Rat :=
  let cs0 := trimChars s.toList
  let signAndRest : Int × List Char :=
    match cs0 with
    | '-' :: t => (-1, t)
    | '+' :: t => (1, t)
    | t => (1, t)
  let sign := signAndRest.1
  let cs1 := signAndRest.2
  let ip := cs1.takeWhile (·.isDigit)
  let cs2 := cs1.dropWhile (·.isDigit)
  let fracAndRest : List Char × List Char :=
    match cs2 with
    | '.' :: t => (t.takeWhile (·.isDigit), t.dropWhile (·.isDigit))
    | t => ([], t)
  let fp := fracAndRest.1
  let cs3 := fracAndRest.2
  if ip.isEmpty && fp.isEmpty then none
  else
    let mantNum : Nat := digitsToNat ip * 10 ^ fp.length + digitsToNat fp
    let mantDen : Nat := 10 ^ fp.length
    match cs3 with
    | [] => some (mkRat (sign * mantNum) mantDen)
    | e :: t =>
      if e == 'e' || e == 'E' then
        let expAndRest : Bool × List Char :=
          match t with
          | '-' :: t2 => (true, t2)
          | '+' :: t2 => (false, t2)
          | t2 => (false, t2)
        let negExp := expAndRest.1
        let es := expAndRest.2
        if allDigits es then
          let ev := digitsToNat es
          if negExp then some (mkRat (sign * mantNum) (mantDen * 10 ^ ev))
          else some (mkRat (sign * mantNum * 10 ^ ev) mantDen)
        else none
      else none

/-- One row of the DataFrame: column names paired with cells, in column order. -/
abbrev Row : Type := List (String × Cell)

/-- `pd.DataFrame(records, columns=fields)` builds row `i` by aligning record
`i` positionally with the field list (app.py line 67). -/
def buildRow (fields : List String) (r : List Scalar) : Row :=
  fields.zip (r.map Cell.raw)

/-- `pd.to_datetime` on one cell of the `cd` column (app.py line 70): a string
must match the format or the conversion raises; `None` becomes NaT. -/
def coerceDateCell : Cell → Except String Cell
  | .raw (.str s) =>
    match parseDatetime s with
    | some t => .ok (.time t)
    | none => .error ("ValueError: time data " ++ s ++ " does not match format %Y-%b-%d %H:%M")
  | .raw .null => .ok .nat_missing
  | _ => .error "TypeError: invalid value for datetime conversion"

/-- `pd.to_numeric(..., errors=\x27coerce\x27)` on one cell (app.py
lines 71-73): non-numeric strings become NaN, numbers pass through,
booleans become 0/1, `None` becomes NaN.  Never fails. -/
def coerceNumericCell : Cell → Cell
  | .raw (.str s) =>
    match parseNumeric s with
    | some q => .num q
    | none => .nan
  | .raw (.num q) => .num q
  | .raw (.bool b) => .num (if b then 1 else 0)
  | .raw .null => .nan
  | c => c

/-- Apply the datetime coercion to the `cd` cells of one row. -/
def coerceDateRow : Row → Except String Row
  | [] => .ok []
  | (k, c) :: rest =>
    if k == "cd" then
      match coerceDateCell c, coerceDateRow rest with
      | .ok c2, .ok rest2 => .ok ((k, c2) :: rest2)
      | .error e, _ => .error e
      | _, .error e => .error e
    else
      match coerceDateRow rest with
      | .ok rest2 => .ok ((k, c) :: rest2)
      | .error e => .error e

/-- `fd[\x27cd\x27] = pd.to_datetime(fd[\x27cd\x27], ...)` column-wise: the
first failing cell aborts the whole conversion (app.py line 70). -/
def coerceDateCol : List Row → Except String (List Row)
  | [] => .ok []
  | row :: rest =>
    match coerceDateRow row, coerceDateCol rest with
    | .ok r2, .ok rest2 => .ok (r2 :: rest2)
    | .error e, _ => .error e
    | _, .error e => .error e

/-- Apply the numeric coercion to the cells of column `col` in one row. -/
def coerceNumRow (col : String) (row : Row) : Row :=
  row.map (fun p => if p.1 == col then (p.1, coerceNumericCell p.2) else p)

/-- `fd[col] = pd.to_numeric(fd[col], errors=\x27coerce\x27)` column-wise
(app.py lines 71-73). -/
def coerceNumCol (col : String) (rows : List Row) : List Row :=
  rows.map (coerceNumRow col)

/-- The three numeric coercions of app.py lines 71-73 applied to one row,
in source order. -/
def coerceAllNums (row : Row) : Row :=
  coerceNumRow "v_inf" (coerceNumRow "v_rel" (coerceNumRow "dist" row))

/-- The complete per-record normalization: positional alignment, datetime
coercion of `cd`, then the three numeric coercions. -/
def normalizeRecord (fields : List String) (r : List Scalar) : Except String Row :=
  match coerceDateRow (buildRow fields r) with
  | .ok row => .ok (coerceAllNums row)
  | .error e => .error e

/-- Read the payload`s `fields` entry as a list of strings. -/
def jsonToStrList : Json → Option (List String)
  | .arr xs => xs.mapM (fun j => match j with | .str s => some s | _ => none)
  | _ => none

def jsonToScalar : Json → Option Scalar
  | .null => some .null
  | .bool b => some (.bool b)
  | .num q => some (.num q)
  | .str s => some (.str s)
  | _ => none

/-- Read the payload`s `data` entry as a list of records of scalar values. -/
def jsonToRecords : Json → Option (List (List Scalar))
  | .arr xs => xs.mapM (fun j => match j with
      | .arr r => r.mapM jsonToScalar
      | _ => none)
  | _ => none

/-- `parse_data` (app.py lines 60-75).  `none` models a failed fetch
(`data is None`).  An absent or zero `count` yields the empty DataFrame
(lines 61-63).  Otherwise the records are aligned with the field list
(line 67) and the four typed columns are coerced in source order
(lines 70-73); a `cd` value that does not match the format raises. -/
def parse_data (data : Option Json) : Except String (List Row) :=
  match data with
  | none => .ok []
  | some j =>
    match j with
    | .obj kvs =>
      if jsonEqZero (pyGet kvs "count" (.num 0)) then .ok []
      else
        match jsonToStrList (pyGet kvs "fields" (.arr [])),
              jsonToRecords (pyGet kvs "data" (.arr [])) with
        | some fields, some records =>
          if records.all (fun r => r.length == fields.length) then
            let rows := records.map (buildRow fields)
            if "cd" ∈ fields then
              match coerceDateCol rows with
              | .error e => .error e
              | .ok rows1 =>
                if "dist" ∈ fields then
                  let rows2 := coerceNumCol "dist" rows1
                  if "v_rel" ∈ fields then
                    let rows3 := coerceNumCol "v_rel" rows2
                    if "v_inf" ∈ fields then .ok (coerceNumCol "v_inf" rows3)
                    else .error "KeyError: \x27v_inf\x27"
                  else .error "KeyError: \x27v_rel\x27"
                else .error "KeyError: \x27dist\x27"
            else .error "KeyError: \x27cd\x27"
          else .error "ValueError: columns passed, passed data had a different number of columns"
        | _, _ => .error "TypeError: payload fields or data have an unsupported shape"
    | _ => .error "AttributeError: object has no attribute \x27get\x27"

/-- Remove elements already seen, keeping first occurrences
(`DataFrame.drop_duplicates()` keeps the first copy of each duplicated row;
its row comparison treats equal NaN markers as equal, as `Cell.nan` does). -/
def dropDupAux {α : Type} [DecidableEq α] (seen : List α) : List α → List α
  | [] => []
  | x :: xs => if x ∈ seen then dropDupAux seen xs else x :: dropDupAux (x :: seen) xs

/-- The Combiner (app.py lines 252-253): `pd.concat([a, b], ignore_index=True)`
followed by `drop_duplicates(inplace=True)`. -/
def combineRows (a b : List Row) : List Row :=
  dropDupAux [] (a ++ b)

/-- A cell holds a string that the datetime coercion accepts. -/
def cellDateParses : Cell → Bool
  | .raw (.str s) => (parseDatetime s).isSome
  | _ => false

/-- A one-record payload whose `cd` value does not match the expected format. -/
def badDatePayload : Json :=
  .obj [("count", .num 1),
        ("fields", .arr [.str "des", .str "cd", .str "dist", .str "v_rel", .str "v_inf"]),
        ("data", .arr [.arr [.str "2025 AB", .str "not-a-date", .str "0.0123", .str "7.5", .str "7.4"]])]

/-- The same record with a well-formed date but a non-numeric `dist`. -/
def badNumPayload : Json :=
  .obj [("count", .num 1),
        ("fields", .arr [.str "des", .str "cd", .str "dist", .str "v_rel", .str "v_inf"]),
        ("data", .arr [.arr [.str "2025 AB", .str "2025-Jan-15 03:20", .str "N/A", .str "7.5", .str "7.4"]])]

/-- A sample row used to exhibit Combiner behaviour on duplicated input. -/
def dupRow : Row := [("des", .raw (.str "2025 AB"))]

/-- `dropDupAux` only depends on the membership of `seen`. -/
theorem dropDupAux_congr {α : Type} [DecidableEq α] :
    ∀ (l s1 s2 : List α), (∀ x, x ∈ s1 ↔ x ∈ s2) →
      dropDupAux s1 l = dropDupAux s2 l := by
  intro l
  induction l with
  | nil => intro s1 s2 _; rfl
  | cons x xs ih =>
    intro s1 s2 h
    simp only [dropDupAux]
    by_cases hx : x ∈ s1
    · rw [if_pos hx, if_pos ((h x).mp hx)]
      exact ih s1 s2 h
    · rw [if_neg hx, if_neg (fun hc => hx ((h x).mpr hc))]
      exact congrArg (x :: ·) (ih (x :: s1) (x :: s2) (fun y => by simp [h y]))

/-- Membership in the deduplicated list. -/
theorem mem_dropDupAux {α : Type} [DecidableEq α] :
    ∀ (l seen : List α) (x : α), x ∈ dropDupAux seen l ↔ x ∈ l ∧ x ∉ seen := by
  intro l
  induction l with
  | nil => intro seen x; simp [dropDupAux]
  | cons y ys ih =>
    intro seen x
    simp only [dropDupAux]
    by_cases hy : y ∈ seen
    · rw [if_pos hy, ih]
      simp only [List.mem_cons]
      constructor
      · rintro ⟨hx, hn⟩; exact ⟨Or.inr hx, hn⟩
      · rintro ⟨rfl | hx, hn⟩
        · exact absurd hy hn
        · exact ⟨hx, hn⟩
    · rw [if_neg hy]
      simp only [List.mem_cons, ih, not_or]
      constructor
      · rintro (rfl | ⟨hx, hn1, hn2⟩)
        · exact ⟨Or.inl rfl, hy⟩
        · exact ⟨Or.inr hx, hn2⟩
      · rintro ⟨rfl | hx, hn⟩
        · exact Or.inl rfl
        · by_cases hxy : x = y
          · exact Or.inl hxy
          · exact Or.inr ⟨hx, hxy, hn⟩

/-- Deduplication yields a sublist (order of survivors is preserved). -/
theorem dropDupAux_sublist {α : Type} [DecidableEq α] :
    ∀ (l seen : List α), (dropDupAux seen l).Sublist l := by
  intro l
  induction l with
  | nil => intro seen; simp [dropDupAux]
  | cons x xs ih =>
    intro seen
    simp only [dropDupAux]
    by_cases hx : x ∈ seen
    · rw [if_pos hx]; exact (ih seen).cons x
    · rw [if_neg hx]; exact (ih (x :: seen)).cons₂ x

/-- Deduplication leaves no duplicates. -/
theorem nodup_dropDupAux {α : Type} [DecidableEq α] :
    ∀ (l seen : List α), (dropDupAux seen l).Nodup := by
  intro l
  induction l with
  | nil => intro seen; simp [dropDupAux]
  | cons x xs ih =>
    intro seen
    simp only [dropDupAux]
    by_cases hx : x ∈ seen
    · rw [if_pos hx]; exact ih seen
    · rw [if_neg hx]
      refine List.nodup_cons.mpr ⟨?_, ih (x :: seen)⟩
      intro hmem
      exact ((mem_dropDupAux xs (x :: seen) x).mp hmem).2 (List.mem_cons_self x (seen))

/-- A list all of whose elements were already seen deduplicates to nothing. -/
theorem dropDupAux_eq_nil {α : Type} [DecidableEq α] :
    ∀ (l seen : List α), (∀ x ∈ l, x ∈ seen) → dropDupAux seen l = [] := by
  intro l
  induction l with
  | nil => intro seen _; rfl
  | cons x xs ih =>
    intro seen h
    simp only [dropDupAux]
    rw [if_pos (h x (List.mem_cons_self x xs))]
    exact ih seen (fun y hy => h y (List.mem_cons_of_mem x hy))

/-- Deduplicating `a ++ b` with a duplicate-free, unseen `a` keeps `a`
verbatim and continues on `b` with `a` added to the seen set. -/
theorem dropDupAux_append {α : Type} [DecidableEq α] :
    ∀ (a b seen : List α), a.Nodup → (∀ x ∈ a, x ∉ seen) →
      dropDupAux seen (a ++ b) = a ++ dropDupAux (a ++ seen) b := by
  intro a
  induction a with
  | nil => intro b seen _ _; simp
  | cons x a' ih =>
    intro b seen hnd hns
    have hx : x ∉ seen := hns x (List.mem_cons_self x a')
    simp only [List.cons_append, dropDupAux, List.append_eq, if_neg hx]
    have hxa : x ∉ a' := (List.nodup_cons.mp hnd).1
    have hns' : ∀ y ∈ a', y ∉ x :: seen := by
      intro y hy
      simp only [List.mem_cons, not_or]
      exact ⟨fun hyx => hxa (hyx ▸ hy), hns y (List.mem_cons_of_mem x hy)⟩
    rw [ih b (x :: seen) (List.nodup_cons.mp hnd).2 hns']
    refine congrArg (x :: ·) (congrArg (a' ++ ·) ?_)
    exact dropDupAux_congr b (a' ++ x :: seen) (x :: (a' ++ seen))
      (fun y => by simp [List.mem_append, List.mem_cons]; tauto)

/-- C7: combining an internally duplicate-free row set with itself returns it
unchanged — every row of the second operand collapses as a full-row duplicate
of the first. -/
theorem combine_self_dedup (rows : List Row) (h : rows.Nodup) :
    combineRows rows rows = rows := by
  unfold combineRows
  rw [dropDupAux_append rows rows [] h (by simp)]
  rw [dropDupAux_eq_nil rows (rows ++ []) (by simp)]
  simp

/-- Witness for C7 on a two-row duplicate-free row set. -/
theorem combine_self_dedup_witness :
    ([[("des", Cell.raw (.str "A"))], [("des", Cell.raw (.str "B"))]] : List Row).Nodup ∧
    combineRows [[("des", Cell.raw (.str "A"))], [("des", Cell.raw (.str "B"))]]
      [[("des", Cell.raw (.str "A"))], [("des", Cell.raw (.str "B"))]] =
      [[("des", Cell.raw (.str "A"))], [("des", Cell.raw (.str "B"))]] :=
  ⟨by decide, combine_self_dedup _ (by decide)⟩

/-- C8 counterexample: with an internally duplicated first operand the first
`len(rowsA)` output rows are not `rowsA` verbatim (`drop_duplicates` also
collapses duplicates inside the first operand). -/
theorem combine_first_operand_cex :
    (combineRows [dupRow, dupRow] []).take ([dupRow, dupRow] : List Row).length ≠
      [dupRow, dupRow] := by decide

/-- C8 (amended): when the first operand has no internal duplicates, the
combined output is `rowsA` verbatim (so its first `len(rowsA)` rows equal
`rowsA`), followed by exactly those rows of `rowsB` that duplicate neither a
row of `rowsA` nor an earlier row of `rowsB`, in their original order. -/
theorem combine_first_operand_nodup (a b : List Row) (h : a.Nodup) :
    (combineRows a b).take a.length = a ∧
    ∃ t, combineRows a b = a ++ t ∧ t.Sublist b ∧ t.Nodup ∧
      (∀ r ∈ t, r ∉ a) ∧ (∀ r ∈ b, r ∉ a → r ∈ t) := by
  unfold combineRows
  rw [dropDupAux_append a b [] h (by simp)]
  refine ⟨List.take_left a _, _, rfl, dropDupAux_sublist b (a ++ []),
    nodup_dropDupAux b (a ++ []), ?_, ?_⟩
  · intro r hr
    have hm := (mem_dropDupAux b (a ++ []) r).mp hr
    simpa using hm.2
  · intro r hrb hra
    exact (mem_dropDupAux b (a ++ []) r).mpr ⟨hrb, by simpa using hra⟩

/-- Witness for C8 (amended) on concrete row sets with an overlap. -/
theorem combine_first_operand_nodup_witness :
    ([[("des", Cell.raw (.str "A"))]] : List Row).Nodup ∧
    ((combineRows [[("des", Cell.raw (.str "A"))]]
        [[("des", Cell.raw (.str "A"))], [("des", Cell.raw (.str "B"))]]).take
      ([[("des", Cell.raw (.str "A"))]] : List Row).length =
        [[("des", Cell.raw (.str "A"))]] ∧
     ∃ t, combineRows [[("des", Cell.raw (.str "A"))]]
        [[("des", Cell.raw (.str "A"))], [("des", Cell.raw (.str "B"))]] =
          [[("des", Cell.raw (.str "A"))]] ++ t ∧
       t.Sublist [[("des", Cell.raw (.str "A"))], [("des", Cell.raw (.str "B"))]] ∧
       t.Nodup ∧
       (∀ r ∈ t, r ∉ ([[("des", Cell.raw (.str "A"))]] : List Row)) ∧
       (∀ r ∈ ([[("des", Cell.raw (.str "A"))], [("des", Cell.raw (.str "B"))]] : List Row),
          r ∉ ([[("des", Cell.raw (.str "A"))]] : List Row) → r ∈ t)) :=
  ⟨by decide,
   combine_first_operand_nodup [[("des", Cell.raw (.str "A"))]]
     [[("des", Cell.raw (.str "A"))], [("des", Cell.raw (.str "B"))]] (by decide)⟩

/-- C1: every `object_type` other than `"NEO"` (in particular `"Comet"`)
makes `fetch_close_approaches` fail at call time with the name-resolution
error of the comet-flag check, for every possible network behaviour — no
request is issued and nothing is silently mis-filtered. -/
theorem fetch_object_type_name_error
    (body_code min_date max_date max_dist dist_unit : String) (my_limit : Nat)
    (object_type : String) (net : List (String × ParamValue) → HttpOutcome)
    (h : object_type ≠ "NEO") :
    fetch_close_approaches body_code min_date max_date max_dist dist_unit my_limit
      object_type net =
      .error "NameError: name \x27object_tye\x27 is not defined" := by
  have hb : (object_type == "NEO") = false := beq_eq_false_iff_ne.mpr h
  simp [fetch_close_approaches, buildMyParams, hb]

/-- Witness for C1 at `object_type = "Comet"`. -/
theorem fetch_object_type_name_error_witness :
    ("Comet" : String) ≠ "NEO" ∧
      fetch_close_approaches "Earth" "now" "+60" "0.05" "AU" 100 "Comet"
        (fun _ => .transportFailure "boom") =
        .error "NameError: name \x27object_tye\x27 is not defined" :=
  ⟨by decide,
   fetch_object_type_name_error "Earth" "now" "+60" "0.05" "AU" 100 "Comet"
     (fun _ => .transportFailure "boom") (by decide)⟩

/-- C2: whenever the parameter builder returns a dict, it carries exactly one
of `neo=true`, `comet=true`, or neither flag, and the flag value is never
`both`. -/
theorem params_object_flag_exclusive
    (body_code min_date max_date max_dist dist_unit : String) (my_limit : Nat)
    (object_type : String) (m : List (String × ParamValue))
    (h : buildMyParams body_code min_date max_date max_dist dist_unit my_limit
      object_type = .ok m) :
    ((m.lookup "neo" = some (.str "true") ∧ m.lookup "comet" = none) ∨
     (m.lookup "comet" = some (.str "true") ∧ m.lookup "neo" = none) ∨
     (m.lookup "neo" = none ∧ m.lookup "comet" = none)) ∧
    m.lookup "neo" ≠ some (.str "both") ∧ m.lookup "comet" ≠ some (.str "both") ∧
    m.lookup "neo" ≠ some (.str "Both") ∧ m.lookup "comet" ≠ some (.str "Both") := by
  rw [buildMyParams] at h
  split at h
  · injection h with h
    subst h
    refine ⟨Or.inl ⟨?_, ?_⟩, ?_, ?_, ?_, ?_⟩ <;> simp [baseParams, List.lookup]
  · exact absurd h (by simp)

/-- Witness for C2 at `object_type = "NEO"`. -/
theorem params_object_flag_exclusive_witness :
    buildMyParams "Earth" "now" "+60" "0.05" "AU" 100 "NEO" =
      .ok (baseParams "Earth" "now" "+60" "0.05" "AU" 100 ++ [("neo", .str "true")]) ∧
    (((baseParams "Earth" "now" "+60" "0.05" "AU" 100 ++
        [("neo", ParamValue.str "true")]).lookup "neo" = some (.str "true") ∧
      (baseParams "Earth" "now" "+60" "0.05" "AU" 100 ++
        [("neo", ParamValue.str "true")]).lookup "comet" = none) ∨
     ((baseParams "Earth" "now" "+60" "0.05" "AU" 100 ++
        [("neo", ParamValue.str "true")]).lookup "comet" = some (.str "true") ∧
      (baseParams "Earth" "now" "+60" "0.05" "AU" 100 ++
        [("neo", ParamValue.str "true")]).lookup "neo" = none) ∨
     ((baseParams "Earth" "now" "+60" "0.05" "AU" 100 ++
        [("neo", ParamValue.str "true")]).lookup "neo" = none ∧
      (baseParams "Earth" "now" "+60" "0.05" "AU" 100 ++
        [("neo", ParamValue.str "true")]).lookup "comet" = none)) ∧
    (baseParams "Earth" "now" "+60" "0.05" "AU" 100 ++
      [("neo", ParamValue.str "true")]).lookup "neo" ≠ some (.str "both") ∧
    (baseParams "Earth" "now" "+60" "0.05" "AU" 100 ++
      [("neo", ParamValue.str "true")]).lookup "comet" ≠ some (.str "both") ∧
    (baseParams "Earth" "now" "+60" "0.05" "AU" 100 ++
      [("neo", ParamValue.str "true")]).lookup "neo" ≠ some (.str "Both") ∧
    (baseParams "Earth" "now" "+60" "0.05" "AU" 100 ++
      [("neo", ParamValue.str "true")]).lookup "comet" ≠ some (.str "Both") :=
  ⟨by decide,
   params_object_flag_exclusive "Earth" "now" "+60" "0.05" "AU" 100 "NEO" _ (by decide)⟩

/-- C3: the `dist-max` entry of the parameter dict is exactly the string
concatenation of magnitude and unit, for every supported body code, dates,
magnitude, unit, and limit. -/
theorem dist_max_concat
    (body_code min_date max_date max_dist dist_unit : String) (my_limit : Nat)
    (_hb : body_code ∈ BODY_CODES.map Prod.snd)
    (_hu : dist_unit = "AU" ∨ dist_unit = "LD") :
    (baseParams body_code min_date max_date max_dist dist_unit my_limit).lookup "dist-max"
      = some (.str (max_dist ++ dist_unit)) := by
  simp [baseParams, List.lookup]

/-- Witness for C3 at Earth, unit `AU`, magnitude `0.05`. -/
theorem dist_max_concat_witness :
    "Earth" ∈ BODY_CODES.map Prod.snd ∧
    (("AU" : String) = "AU" ∨ ("AU" : String) = "LD") ∧
    (baseParams "Earth" "now" "+60" "0.05" "AU" 100).lookup "dist-max"
      = some (.str ("0.05" ++ "AU")) :=
  ⟨by decide, Or.inl rfl,
   dist_max_concat "Earth" "now" "+60" "0.05" "AU" 100 (by decide) (Or.inl rfl)⟩

/-- C4: a `None` payload (failed fetch) or a payload whose `count` is zero or
missing makes `parse_data` return the empty row list through the normal
(non-error) path. -/
theorem parse_data_empty_on_absent_or_zero (data : Option Json)
    (h : data = none ∨ ∃ kvs, data = some (.obj kvs) ∧
      (kvs.lookup "count" = none ∨ kvs.lookup "count" = some (.num 0))) :
    parse_data data = .ok [] := by
  rcases h with h | ⟨kvs, rfl, hc⟩
  · rw [h]; rfl
  · have hz : jsonEqZero (pyGet kvs "count" (.num 0)) = true := by
      rcases hc with hc | hc <;> simp [pyGet, hc, jsonEqZero]
    simp [parse_data, hz]

/-- Witness for C4 at a zero-count payload. -/
theorem parse_data_empty_on_absent_or_zero_witness :
    (some (Json.obj [("count", Json.num 0)]) = none ∨
      ∃ kvs, some (Json.obj [("count", Json.num 0)]) = some (Json.obj kvs) ∧
        (kvs.lookup "count" = none ∨ kvs.lookup "count" = some (.num 0))) ∧
    parse_data (some (.obj [("count", .num 0)])) = .ok [] :=
  ⟨Or.inr ⟨[("count", Json.num 0)], rfl, Or.inr rfl⟩,
   parse_data_empty_on_absent_or_zero (some (.obj [("count", .num 0)]))
     (Or.inr ⟨[("count", Json.num 0)], rfl, Or.inr rfl⟩)⟩

/-- The three numeric column coercions act pointwise on a row. -/
theorem coerceAllNums_eq_map (row : Row) :
    coerceAllNums row = row.map (fun p =>
      (fun q : String × Cell => if q.1 == "v_inf" then (q.1, coerceNumericCell q.2) else q)
      ((fun q : String × Cell => if q.1 == "v_rel" then (q.1, coerceNumericCell q.2) else q)
       ((fun q : String × Cell => if q.1 == "dist" then (q.1, coerceNumericCell q.2) else q) p))) := by
  simp only [coerceAllNums, coerceNumRow, List.map_map]
  rfl

/-- C6: a non-numeric string in a `dist`, `v_rel` or `v_inf` cell never makes
the numeric coercions fail: the affected cell becomes the missing marker, the
row keeps its length, and cells of other columns are untouched. -/
theorem numeric_coercion_recovers (row : Row) (col s : String) (i : Nat)
    (hcol : col = "dist" ∨ col = "v_rel" ∨ col = "v_inf")
    (hi : i < row.length)
    (hcell : row.get ⟨i, hi⟩ = (col, Cell.raw (.str s)))
    (hbad : parseNumeric s = none) :
    (coerceAllNums row).length = row.length ∧
    (∀ h2 : i < (coerceAllNums row).length,
      (coerceAllNums row).get ⟨i, h2⟩ = (col, Cell.nan)) ∧
    (∀ (j : Nat) (hj : j < row.length) (hj2 : j < (coerceAllNums row).length),
      (row.get ⟨j, hj⟩).1 ≠ "dist" → (row.get ⟨j, hj⟩).1 ≠ "v_rel" →
      (row.get ⟨j, hj⟩).1 ≠ "v_inf" →
      (coerceAllNums row).get ⟨j, hj2⟩ = row.get ⟨j, hj⟩) := by
  rw [List.get_eq_getElem] at hcell
  refine ⟨by simp [coerceAllNums, coerceNumRow], ?_, ?_⟩
  · intro h2
    simp only [List.get_eq_getElem, coerceAllNums_eq_map, List.getElem_map, hcell]
    rcases hcol with rfl | rfl | rfl <;> simp [coerceNumericCell, hbad]
  · intro j hj hj2 h1 h2 h3
    rw [List.get_eq_getElem] at h1 h2 h3
    simp only [List.get_eq_getElem, coerceAllNums_eq_map, List.getElem_map]
    simp [h1, h2, h3]

/-- Witness for C6 on a two-cell row with a non-numeric `dist`. -/
theorem numeric_coercion_recovers_witness :
    ((("dist" : String) = "dist" ∨ ("dist" : String) = "v_rel" ∨
        ("dist" : String) = "v_inf") ∧
      parseNumeric "N/A" = none) ∧
    ((coerceAllNums [("des", .raw (.str "X")), ("dist", .raw (.str "N/A"))]).length =
        ([("des", .raw (.str "X")), ("dist", .raw (.str "N/A"))] : Row).length ∧
      (∀ h2 : 1 < (coerceAllNums
          [("des", .raw (.str "X")), ("dist", .raw (.str "N/A"))]).length,
        (coerceAllNums [("des", .raw (.str "X")),
          ("dist", .raw (.str "N/A"))]).get ⟨1, h2⟩ = ("dist", Cell.nan)) ∧
      (∀ (j : Nat)
        (hj : j < ([("des", .raw (.str "X")), ("dist", .raw (.str "N/A"))] : Row).length)
        (hj2 : j < (coerceAllNums
          [("des", .raw (.str "X")), ("dist", .raw (.str "N/A"))]).length),
        (([("des", .raw (.str "X")), ("dist", .raw (.str "N/A"))] : Row).get
            ⟨j, hj⟩).1 ≠ "dist" →
        (([("des", .raw (.str "X")), ("dist", .raw (.str "N/A"))] : Row).get
            ⟨j, hj⟩).1 ≠ "v_rel" →
        (([("des", .raw (.str "X")), ("dist", .raw (.str "N/A"))] : Row).get
            ⟨j, hj⟩).1 ≠ "v_inf" →
        (coerceAllNums [("des", .raw (.str "X")),
          ("dist", .raw (.str "N/A"))]).get ⟨j, hj2⟩ =
          ([("des", .raw (.str "X")), ("dist", .raw (.str "N/A"))] : Row).get ⟨j, hj⟩)) :=
  ⟨⟨Or.inl rfl, by decide⟩,
   numeric_coercion_recovers [("des", .raw (.str "X")), ("dist", .raw (.str "N/A"))]
     "dist" "N/A" 1 (Or.inl rfl) (by decide) (by decide) (by decide)⟩

/-- C9: the fetcher signals failure by returning `None` with a message and
distinguishes the two failure classes: an HTTP error response surfaces the
structured error detail when the body parses as JSON and the no-detail
message otherwise, while a transport-level failure surfaces the raw
exception description; on success the decoded payload is returned
unmodified. -/
theorem fetcher_failure_classes (j : Json) (errDesc desc : String) :
    handleResponse (.response true errDesc (.ok j)) = (some j, []) ∧
    handleResponse (.response false errDesc (.ok j)) =
      (none, ["⚠️ HTTP error occurred: " ++ errDesc,
              "🔍 Error Details: " ++ pyRepr j]) ∧
    handleResponse (.response false errDesc (.error desc)) =
      (none, ["⚠️ HTTP error occurred: " ++ errDesc,
              "🔍 No additional error information provided."]) ∧
    handleResponse (.transportFailure desc) =
      (none, ["⚠️ Error fetching data from API: " ++ desc]) :=
  ⟨rfl, rfl, rfl, rfl⟩

/-- A cell accepted by `cellDateParses` is coerced without error. -/
theorem coerceDateCell_ok_of_parses (c : Cell) (h : cellDateParses c = true) :
    ∃ c2, coerceDateCell c = .ok c2 := by
  cases c with
  | raw v =>
    cases v with
    | str s =>
      simp only [cellDateParses] at h
      obtain ⟨t, ht⟩ := Option.isSome_iff_exists.mp h
      exact ⟨.time t, by simp [coerceDateCell, ht]⟩
    | null => exact absurd h (by simp [cellDateParses])
    | bool b => exact absurd h (by simp [cellDateParses])
    | num q => exact absurd h (by simp [cellDateParses])
  | num q => exact absurd h (by simp [cellDateParses])
  | nan => exact absurd h (by simp [cellDateParses])
  | time t => exact absurd h (by simp [cellDateParses])
  | nat_missing => exact absurd h (by simp [cellDateParses])

/-- A row whose `cd` cells all parse is date-coerced without error. -/
theorem coerceDateRow_ok :
    ∀ row : Row, (∀ p ∈ row, p.1 = "cd" → ∃ c2, coerceDateCell p.2 = .ok c2) →
      ∃ out, coerceDateRow row = .ok out := by
  intro row
  induction row with
  | nil => intro _; exact ⟨[], rfl⟩
  | cons p rest ih =>
    intro h
    obtain ⟨out, hout⟩ := ih (fun q hq => h q (List.mem_cons_of_mem p hq))
    rcases p with ⟨k, c⟩
    by_cases hk : (k == "cd") = true
    · obtain ⟨c2, hc2⟩ := h (k, c) (List.mem_cons_self _ _) (by simpa using hk)
      exact ⟨(k, c2) :: out, by simp [coerceDateRow, hk, hc2, hout]⟩
    · exact ⟨(k, c) :: out, by simp [coerceDateRow, hk, hout]⟩

/-- When every row date-coerces, the column coercion succeeds, preserves the
row count, and acts row-wise in order. -/
theorem coerceDateCol_spec :
    ∀ rows : List Row, (∀ row ∈ rows, ∃ out, coerceDateRow row = .ok out) →
      ∃ outs, coerceDateCol rows = .ok outs ∧ outs.length = rows.length ∧
        ∀ (i : Nat) (h1 : i < rows.length) (h2 : i < outs.length),
          coerceDateRow (rows.get ⟨i, h1⟩) = .ok (outs.get ⟨i, h2⟩) := by
  intro rows
  induction rows with
  | nil =>
    intro _
    exact ⟨[], rfl, rfl, fun i h1 _ => absurd h1 (Nat.not_lt_zero i)⟩
  | cons row rest ih =>
    intro h
    obtain ⟨out, hout⟩ := h row (List.mem_cons_self _ _)
    obtain ⟨outs, houts, hlen, hidx⟩ := ih (fun r hr => h r (List.mem_cons_of_mem row hr))
    refine ⟨out :: outs, by simp [coerceDateCol, hout, houts], by simp [hlen], ?_⟩
    intro i h1 h2
    cases i with
    | zero => simpa using hout
    | succ m =>
      simp only [List.get_eq_getElem, List.getElem_cons_succ]
      have hm1 : m < rest.length := by simpa using h1
      have hm2 : m < outs.length := by simpa using h2
      simpa using hidx m hm1 hm2

/-- C5: a payload with `count = N > 0` and `N` well-formed records (each
positionally aligned to the field list, with a parsing date) normalizes to
exactly `N` rows, row `i` being the normalization of record `i`. -/
theorem parse_data_row_count (kvs : List (String × Json)) (fj dj : Json)
    (fields : List String) (records : List (List Scalar)) (n : Nat)
    (hcount : kvs.lookup "count" = some (.num (n : Rat)))
    (hn : 0 < n)
    (hfj : kvs.lookup "fields" = some fj) (hfl : jsonToStrList fj = some fields)
    (hdj : kvs.lookup "data" = some dj) (hrl : jsonToRecords dj = some records)
    (hlen : records.length = n)
    (halign : ∀ r ∈ records, r.length = fields.length)
    (hcd : "cd" ∈ fields) (hdist : "dist" ∈ fields)
    (hvrel : "v_rel" ∈ fields) (hvinf : "v_inf" ∈ fields)
    (hdates : ∀ r ∈ records, ∀ p ∈ buildRow fields r, p.1 = "cd" →
      cellDateParses p.2 = true) :
    ∃ rows, parse_data (some (.obj kvs)) = .ok rows ∧ rows.length = n ∧
      ∀ (i : Nat) (h1 : i < records.length) (h2 : i < rows.length),
        normalizeRecord fields (records.get ⟨i, h1⟩) = .ok (rows.get ⟨i, h2⟩) := by
  have hrowok : ∀ row ∈ records.map (buildRow fields),
      ∃ out, coerceDateRow row = .ok out := by
    intro row hrow
    obtain ⟨r, hr, rfl⟩ := List.mem_map.mp hrow
    exact coerceDateRow_ok _ (fun p hp hpcd =>
      coerceDateCell_ok_of_parses p.2 (hdates r hr p hp hpcd))
  obtain ⟨outs, houts, hlen2, hidx⟩ := coerceDateCol_spec (records.map (buildRow fields)) hrowok
  have hne : ((n : Rat)) ≠ 0 := by exact_mod_cast hn.ne'
  have hz : jsonEqZero (pyGet kvs "count" (.num 0)) = false := by
    simp [pyGet, hcount, jsonEqZero, hne]
  have hall : records.all (fun r => r.length == fields.length) = true := by
    rw [List.all_eq_true]
    intro r hr
    exact beq_iff_eq.mpr (halign r hr)
  have hpgf : pyGet kvs "fields" (.arr []) = fj := by simp [pyGet, hfj]
  have hpgd : pyGet kvs "data" (.arr []) = dj := by simp [pyGet, hdj]
  refine ⟨coerceNumCol "v_inf" (coerceNumCol "v_rel" (coerceNumCol "dist" outs)),
    ?_, ?_, ?_⟩
  · simp only [parse_data]
    rw [if_neg (by simp [hz]), hpgf, hpgd, hfl, hrl]
    dsimp only
    rw [if_pos hall, if_pos hcd, houts]
    dsimp only
    rw [if_pos hdist, if_pos hvrel, if_pos hvinf]
  · simp only [coerceNumCol, List.length_map]
    rw [hlen2, List.length_map, hlen]
  · intro i h1 h2
    have hi1 : i < (records.map (buildRow fields)).length := by simpa using h1
    have hi2 : i < outs.length := by
      rw [hlen2]
      simpa using h1
    have hd := hidx i hi1 hi2
    rw [List.get_eq_getElem, List.getElem_map] at hd
    simp only [normalizeRecord, List.get_eq_getElem]
    rw [hd]
    simp only [coerceNumCol, List.getElem_map, coerceAllNums]
    rfl

/-- Witness for C5 on the one-record end-to-end payload of the spec. -/
theorem parse_data_row_count_witness :
    ∃ rows,
      parse_data (some (.obj
        [("count", .num 1),
         ("fields", .arr [.str "des", .str "cd", .str "dist", .str "v_rel", .str "v_inf"]),
         ("data", .arr [.arr [.str "2025 AB", .str "2025-Jan-15 03:20",
            .str "0.0123", .str "7.5", .str "7.4"]])])) = .ok rows ∧
      rows.length = 1 ∧
      ∀ (i : Nat)
        (h1 : i < ([[Scalar.str "2025 AB", Scalar.str "2025-Jan-15 03:20",
          Scalar.str "0.0123", Scalar.str "7.5", Scalar.str "7.4"]] :
            List (List Scalar)).length)
        (h2 : i < rows.length),
        normalizeRecord ["des", "cd", "dist", "v_rel", "v_inf"]
          (([[Scalar.str "2025 AB", Scalar.str "2025-Jan-15 03:20",
            Scalar.str "0.0123", Scalar.str "7.5", Scalar.str "7.4"]] :
              List (List Scalar)).get ⟨i, h1⟩) = .ok (rows.get ⟨i, h2⟩) :=
  parse_data_row_count
    [("count", .num 1),
     ("fields", .arr [.str "des", .str "cd", .str "dist", .str "v_rel", .str "v_inf"]),
     ("data", .arr [.arr [.str "2025 AB", .str "2025-Jan-15 03:20",
        .str "0.0123", .str "7.5", .str "7.4"]])]
    (.arr [.str "des", .str "cd", .str "dist", .str "v_rel", .str "v_inf"])
    (.arr [.arr [.str "2025 AB", .str "2025-Jan-15 03:20",
        .str "0.0123", .str "7.5", .str "7.4"]])
    ["des", "cd", "dist", "v_rel", "v_inf"]
    [[Scalar.str "2025 AB", Scalar.str "2025-Jan-15 03:20",
      Scalar.str "0.0123", Scalar.str "7.5", Scalar.str "7.4"]]
    1 rfl (by decide) rfl (by decide) rfl (by decide) (by decide) (by decide)
    (by decide) (by decide) (by decide) (by decide) (by decide)

/-- C10: a non-matching `cd` value aborts `parse_data` with an error, while
the same record with a good date and a non-numeric `dist` is retained with a
missing marker — date coercion, unlike the numeric coercions, has no
recovery mode. -/
theorem date_coercion_aborts :
    (∃ e, parse_data (some badDatePayload) = .error e) ∧
    parse_data (some badNumPayload) =
      .ok [[("des", .raw (.str "2025 AB")), ("cd", .time ⟨2025, 1, 15, 3, 20⟩),
            ("dist", Cell.nan), ("v_rel", .num (mkRat 15 2)),
            ("v_inf", .num (mkRat 37 5))]] :=
  ⟨⟨"ValueError: time data not-a-date does not match format %Y-%b-%d %H:%M", by decide⟩,
   by decide⟩

end NeoComet
